import Mathlib

/-!
Verification of the drug-interaction-checker training pipeline.

We shallowly embed `generate_training_data.py` and `train_ml_model.py`.
Random draws made by one loop iteration of
`generate_synthetic_training_data` are collected in a `Draws` record; the
support of each sampling distribution is captured by `Draws.WF`.  Floating
point quantities are modelled as rationals.  `datetime.now()` is modelled
by an integer `now` parameter (day granularity), so `generated_at`
becomes `now - dayOffset`.
-/

namespace DrugChecker

/-- The fixed 15-drug vocabulary `common_drugs` of the generator. -/
def commonDrugs : List String :=
  ["Warfarin", "Aspirin", "Metformin", "Lisinopril", "Amlodipine",
   "Atorvastatin", "Omeprazole", "Metoprolol", "Levothyroxine", "Losartan",
   "Gabapentin", "Hydrochlorothiazide", "Albuterol", "Sertraline", "Furosemide"]

/-- The three-bucket age mixture `['young', 'middle', 'elderly']`. -/
inductive AgeGroup where
  | young
  | middle
  | elderly
deriving DecidableEq

/-- Lower end of the uniform age range drawn for each bucket. -/
def AgeGroup.lo : AgeGroup → ℚ
  | .young => 18
  | .middle => 40
  | .elderly => 65

/-- Upper end (exclusive) of the uniform age range drawn for each bucket. -/
def AgeGroup.hi : AgeGroup → ℚ
  | .young => 40
  | .middle => 65
  | .elderly => 95

/-- The string stored in the `age_group` metadata field. -/
def AgeGroup.str : AgeGroup → String
  | .young => "young"
  | .middle => "middle"
  | .elderly => "elderly"

/-- One loop iteration's random draws, in source order:
`num_drugs` choice, `random.sample` result, the conditional categorical
draws for contraindicated/serious counts, the two Poisson draws, the age
bucket and the uniform age value, the `np.random.random()` values compared
against the renal/hepatic probabilities, the chronic-condition and allergy
categorical draws, the Gaussian noise, the `np.random.random()` values used
for the outcome and the safe-regimen override, and `random.randint(0,365)`. -/
structure Draws where
  numDrugs : ℕ
  selectedDrugs : List String
  contraDraw : ℕ
  seriousDraw : ℕ
  sigPoisson : ℕ
  minorPoisson : ℕ
  ageGroup : AgeGroup
  ageRaw : ℚ
  renalRand : ℚ
  hepaticRand : ℚ
  chronicDraw : ℕ
  allergyDraw : ℕ
  noise : ℚ
  eventRand : ℚ
  safeRand : ℚ
  dayOffset : ℕ
deriving DecidableEq

/-- Support of each sampling distribution used by the generator:
`np.random.choice([1..10], p=...)` yields 1..10; `random.sample` returns
`min(num_drugs, 15)` distinct vocabulary drugs; the contraindicated
categorical has support `{0,1,2}` when `num_drugs ≥ 5`, `{0,1}` when
`num_drugs ≥ 3`; the serious categorical has support `{0..3}` when
`num_drugs ≥ 4`, `{0..2}` when `num_drugs ≥ 2`; `np.random.uniform(a, b)`
lands in `[a, b)`; `np.random.random()` lands in `[0, 1)`; the chronic
categorical has support `{0..6}` (geriatric) or `{0..3}`; the allergy
categorical has support `{0..3}`; `random.randint(0, 365)` yields 0..365. -/
def Draws.WF (d : Draws) : Prop :=
  1 ≤ d.numDrugs ∧ d.numDrugs ≤ 10 ∧
  d.selectedDrugs.length = min d.numDrugs commonDrugs.length ∧
  d.selectedDrugs.Nodup ∧
  (∀ x ∈ d.selectedDrugs, x ∈ commonDrugs) ∧
  (if 5 ≤ d.numDrugs then d.contraDraw ≤ 2
   else if 3 ≤ d.numDrugs then d.contraDraw ≤ 1 else True) ∧
  (if 4 ≤ d.numDrugs then d.seriousDraw ≤ 3
   else if 2 ≤ d.numDrugs then d.seriousDraw ≤ 2 else True) ∧
  d.ageGroup.lo ≤ d.ageRaw ∧ d.ageRaw < d.ageGroup.hi ∧
  0 ≤ d.renalRand ∧ d.renalRand < 1 ∧
  0 ≤ d.hepaticRand ∧ d.hepaticRand < 1 ∧
  (if (65:ℤ) ≤ ⌊d.ageRaw⌋ then d.chronicDraw ≤ 6 else d.chronicDraw ≤ 3) ∧
  d.allergyDraw ≤ 3 ∧
  0 ≤ d.eventRand ∧ d.eventRand < 1 ∧
  0 ≤ d.safeRand ∧ d.safeRand < 1 ∧
  d.dayOffset ≤ 365

instance (d : Draws) : Decidable d.WF := by
  unfold Draws.WF
  infer_instance

/-- `num_contraindicated`: drawn when `num_drugs >= 5` or `num_drugs >= 3`,
otherwise fixed to 0 (lines 55-60). -/
def numContraindicated (d : Draws) : ℕ :=
  if 5 ≤ d.numDrugs then d.contraDraw
  else if 3 ≤ d.numDrugs then d.contraDraw
  else 0

/-- `num_serious`: drawn when `num_drugs >= 4` or `num_drugs >= 2`,
otherwise fixed to 0 (lines 63-68). -/
def numSerious (d : Draws) : ℕ :=
  if 4 ≤ d.numDrugs then d.seriousDraw
  else if 2 ≤ d.numDrugs then d.seriousDraw
  else 0

/-- `num_significant`: 0, overwritten by the Poisson draw capped at
`num_drugs` when `num_drugs >= 2` (lines 71-74). -/
def numSignificant (d : Draws) : ℕ :=
  if 2 ≤ d.numDrugs then min d.sigPoisson d.numDrugs else 0

/-- `num_minor`: Poisson draw capped at `num_drugs * 2` (lines 77-78). -/
def numMinor (d : Draws) : ℕ :=
  min d.minorPoisson (d.numDrugs * 2)

/-- `patient_age = int(np.random.uniform(lo, hi))` (lines 83-88):
truncation of a non-negative rational is its floor. -/
def patientAge (d : Draws) : ℤ := ⌊d.ageRaw⌋

/-- `has_renal_impairment` (lines 93-99): threshold 0.25 for geriatric
patients, 0.08 otherwise. -/
def hasRenal (d : Draws) : Bool :=
  if (65:ℤ) ≤ patientAge d then decide (d.renalRand < 25/100)
  else decide (d.renalRand < 8/100)

/-- `has_hepatic_impairment` (lines 93-100): threshold 0.15 for geriatric
patients, 0.05 otherwise. -/
def hasHepatic (d : Draws) : Bool :=
  if (65:ℤ) ≤ patientAge d then decide (d.hepaticRand < 15/100)
  else decide (d.hepaticRand < 5/100)

/-- Lines 110-134 of `generate_training_data.py`: the rule-based risk
score before the final `min(risk_score, 100)` cap, as the literal
sequence of in-place updates.  `polypharmacy` is `num_drugs >= 5`
(line 104). -/
def riskScoreRaw (c s g m : ℕ) (age : ℤ) (renal hepatic : Bool)
    (numDrugs allergies chronic : ℕ) : ℚ :=
  let r1 : ℚ := 0 + c * 30
  let r2 := r1 + s * 15
  let r3 := r2 + g * 7
  let r4 := r3 + m * 2
  let r5 := if 80 ≤ age then r4 * (14/10)
            else if 65 ≤ age then r4 * (13/10) else r4
  let r6 := if renal then r5 * (125/100) else r5
  let r7 := if hepatic then r6 * (125/100) else r6
  let r8 := if 5 ≤ numDrugs then r7 * (12/10) else r7
  let r9 := r8 + allergies * 10
  r9 + chronic * 3

/-- Line 137: `risk_score = min(risk_score, 100)`. -/
def riskScore (c s g m : ℕ) (age : ℤ) (renal hepatic : Bool)
    (numDrugs allergies chronic : ℕ) : ℚ :=
  min (riskScoreRaw c s g m age renal hepatic numDrugs allergies chronic) 100

/-- Lines 143-161: adverse-event probability.  Base `risk_score / 100`,
the contraindicated/serious elif-chain with caps 0.95 / 0.85, the
geriatric step with cap 0.90, the organ-impairment step with cap 0.90,
plus the Gaussian noise draw, clamped by `max(0.0, min(1.0, ...))`. -/
def finalProb (risk : ℚ) (c s : ℕ) (age : ℤ) (renal hepatic : Bool)
    (noise : ℚ) : ℚ :=
  let b0 := risk / 100
  let b1 := if 0 < c then min (b0 * (25/10)) (95/100)
            else if 0 < s then min (b0 * (18/10)) (85/100)
            else b0
  let b2 := if 65 ≤ age then min (b1 * (13/10)) (90/100) else b1
  let b3 := if renal || hepatic then min (b2 * (12/10)) (90/100) else b2
  max 0 (min 1 (b3 + noise))

/-- One generated training example (lines 172-196).  The
`severity_summary` dict is flattened into its four entries;
`generated_at` is `now` minus the drawn day offset. -/
structure CaseRecord where
  drugs_checked : List (String × String)
  severity_CONTRAINDICATED : ℕ
  severity_SERIOUS : ℕ
  severity_SIGNIFICANT : ℕ
  severity_MINOR : ℕ
  allergy_alerts : List String
  patient_age : ℤ
  has_renal_impairment : Bool
  has_hepatic_impairment : Bool
  num_chronic_conditions : ℕ
  adverse_event_occurred : ℕ
  risk_score : ℚ
  adverse_event_probability : ℚ
  age_group : String
  generated_at : ℤ
deriving DecidableEq

/-- One loop iteration of `generate_synthetic_training_data`
(lines 42-198) as a function of the iteration's draws and the wall-clock
time `now` observed at line 195. -/
def genCase (d : Draws) (now : ℤ) : CaseRecord :=
  let c := numContraindicated d
  let s := numSerious d
  let g := numSignificant d
  let m := numMinor d
  let age := patientAge d
  let renal := hasRenal d
  let hepatic := hasHepatic d
  let risk := riskScore c s g m age renal hepatic d.numDrugs d.allergyDraw d.chronicDraw
  let prob := finalProb risk c s age renal hepatic d.noise
  let event0 : ℕ := if d.eventRand < prob then 1 else 0
  let event : ℕ :=
    if c = 0 ∧ s = 0 ∧ risk < 20 ∧ d.safeRand < 92/100 then 0 else event0
  { drugs_checked :=
      d.selectedDrugs.enum.map (fun p => ("DRUG_" ++ toString p.1, p.2)),
    severity_CONTRAINDICATED := c,
    severity_SERIOUS := s,
    severity_SIGNIFICANT := g,
    severity_MINOR := m,
    allergy_alerts := (List.range d.allergyDraw).map (fun j => "ALLERGY_" ++ toString j),
    patient_age := age,
    has_renal_impairment := renal,
    has_hepatic_impairment := hepatic,
    num_chronic_conditions := d.chronicDraw,
    adverse_event_occurred := event,
    risk_score := risk,
    adverse_event_probability := prob,
    age_group := d.ageGroup.str,
    generated_at := now - d.dayOffset }

/-- The generation loop: `n` iterations, each consuming fresh draws from
the seeded random streams, appending in order (lines 30, 42, 198, 201). -/
def generate (n : ℕ) (stream : ℕ → Draws) (now : ℤ) : List CaseRecord :=
  (List.range n).map fun i => genCase (stream i) now

/-! ### Spec-side formulations

The following definitions transcribe the SPEC's wording of the scoring
and labelling formulas; theorems below compare them with the
source-derived definitions above. -/

/-- Spec wording: escalation factor for age, ×1.4 if age ≥ 80 else ×1.3
if geriatric (age ≥ 65), else none. -/
def ageFactor (age : ℤ) : ℚ :=
  if 80 ≤ age then 14/10 else if 65 ≤ age then 13/10 else 1

/-- Spec wording of the deterministic risk score: weighted linear
combination 30/15/7/2 of the tier counts, multiplied by the composed
escalation factors (age, renal ×1.25, hepatic ×1.25, polypharmacy ×1.2),
then incremented by allergies×10 and chronic×3, clamped to [0, 100]. -/
def riskScoreSpec (c s g m : ℕ) (age : ℤ) (renal hepatic : Bool)
    (numDrugs allergies chronic : ℕ) : ℚ :=
  min (max ((30 * c + 15 * s + 7 * g + 2 * m : ℚ) * ageFactor age *
        (if renal then 5/4 else 1) * (if hepatic then 5/4 else 1) *
        (if 5 ≤ numDrugs then 6/5 else 1) + 10 * allergies + 3 * chronic) 0) 100

/-- Spec wording "multiply by `mult` (cap `cap`)". -/
def capMul (p mult cap : ℚ) : ℚ := min (p * mult) cap

/-- Spec wording of the label probability: start from risk_score/100; if
any contraindicated interaction exists multiply by 2.5 (cap 0.95), else if
any serious interaction exists multiply by 1.8 (cap 0.85); multiply by 1.3
if geriatric (cap 0.90); by 1.2 if either organ impairment present
(cap 0.90); add the noise draw; clamp to [0, 1]. -/
def finalProbSpec (risk : ℚ) (c s : ℕ) (age : ℤ) (renal hepatic : Bool)
    (noise : ℚ) : ℚ :=
  let p0 := risk / 100
  let p1 := if 0 < c then capMul p0 (5/2) (19/20)
            else if 0 < s then capMul p0 (9/5) (17/20)
            else p0
  let p2 := if 65 ≤ age then capMul p1 (13/10) (9/10) else p1
  let p3 := if renal = true ∨ hepatic = true then capMul p2 (6/5) (9/10) else p2
  max 0 (min 1 (p3 + noise))

/-! ### The training driver (`train_ml_model.py`)

`train_model` is modelled from the point where `training_data` has been
parsed.  For the validation step only the set of keys present in each
example matters, so an example is modelled as its list of field names.
The underlying `risk_predictor.train_model` fit (whose module is not part
of this repository) is an opaque parameter `fit`; `Except.error` models a
Python exception escaping the modelled code, `Except.ok` a normal
return. -/

/-- The `required_fields` list (lines 45-49). -/
def requiredFields : List String :=
  ["drugs_checked", "severity_summary", "allergy_alerts",
   "patient_age", "has_renal_impairment", "has_hepatic_impairment",
   "num_chronic_conditions", "adverse_event_occurred"]

/-- Inner loop of the validation (lines 52-55): the first required field
missing from one example's keys. -/
def findMissingField (ex : List String) : Option String :=
  requiredFields.find? (fun f => !(ex.contains f))

/-- Outer loop of the validation (line 51): first `(index, field)` with a
required field missing, scanning only the first 5 examples. -/
def firstMissing (data : List (List String)) : Option (ℕ × String) :=
  ((data.take 5).enum.filterMap
    (fun p => (findMissingField p.2).map (fun f => (p.1, f)))).head?

/-- How one call of `train_model` ends, after JSON parsing: early return
from the validation loop (lines 53-55), the `except Exception` handler
printing the troubleshooting checklist (lines 145-156), or the success
path. -/
inductive TrainOutcome (μ : Type) where
  | missingField (idx : ℕ) (fieldName : String)
  | trainingFailed (err : String)
  | trained (metrics : μ)
deriving DecidableEq

/-- `train_model` (lines 42-156) from the point after JSON parsing: run
the first-5 validation; on a missing field print an error and return
early.  Then — outside any `try` — the class-balance summary
(lines 60-62): `sum(ex['adverse_event_occurred'] for ex in
training_data)` scans every example and raises KeyError at one lacking
the label key, and `adverse_events / len(training_data)` raises
ZeroDivisionError on an empty corpus; both exceptions propagate to the
caller.  Only then is the fit called inside `try` (line 80), any
exception from it becoming the troubleshooting-checklist path, which
returns normally. -/
def trainDriver {μ : Type} (data : List (List String))
    (fit : List (List String) → Except String μ) :
    Except String (TrainOutcome μ) :=
  match firstMissing data with
  | some (idx, f) => Except.ok (.missingField idx f)
  | none =>
    if !(data.all fun ex => ex.contains "adverse_event_occurred") then
      Except.error "KeyError"
    else if data.length = 0 then
      Except.error "ZeroDivisionError"
    else
      match fit data with
      | .ok metrics => Except.ok (.trained metrics)
      | .error e => Except.ok (.trainingFailed e)

/-! ### CSV projection (`save_training_data`, lines 263-296) -/

/-- Python `round(x, 1)`: round `10*x` to the nearest integer, ties to
even, divide by 10. -/
def roundHalfEven (q : ℚ) : ℤ :=
  if Int.fract q < 1/2 then ⌊q⌋
  else if 1/2 < Int.fract q then ⌊q⌋ + 1
  else if ⌊q⌋ % 2 = 0 then ⌊q⌋ else ⌊q⌋ + 1

/-- `round(risk_score, 1)` as used at line 288. -/
def round1 (q : ℚ) : ℚ := (roundHalfEven (10 * q) : ℚ) / 10

/-- The CSV column names, in the key order of the row dict built at
lines 275-290 (pandas keeps dict insertion order). -/
def csvHeader : List String :=
  ["num_drugs", "num_contraindicated", "num_serious", "num_significant",
   "num_minor", "patient_age", "is_geriatric", "has_renal_impairment",
   "has_hepatic_impairment", "num_chronic_conditions", "num_allergies",
   "polypharmacy", "risk_score", "adverse_event"]

/-- One CSV row (lines 275-290), with booleans as `int(...)` 0/1 values
and `risk_score` rounded to one decimal. -/
def csvRow (e : CaseRecord) : List ℚ :=
  [e.drugs_checked.length, e.severity_CONTRAINDICATED, e.severity_SERIOUS,
   e.severity_SIGNIFICANT, e.severity_MINOR, e.patient_age,
   if 65 ≤ e.patient_age then 1 else 0,
   if e.has_renal_impairment then 1 else 0,
   if e.has_hepatic_impairment then 1 else 0,
   e.num_chronic_conditions, e.allergy_alerts.length,
   if 5 ≤ e.drugs_checked.length then 1 else 0,
   round1 e.risk_score, e.adverse_event_occurred]

/-- The tabular projection written by `save_training_data`: the header
and one row per case, in corpus order. -/
def saveCsv (data : List CaseRecord) : List String × List (List ℚ) :=
  (csvHeader, data.map csvRow)

/-- The column order asserted by the spec: the 12 feature-vector
dimensions in their contractual order (polypharmacy before
num_allergies), followed by the label and then risk_score. -/
def claimedCsvHeader : List String :=
  ["num_drugs", "num_contraindicated", "num_serious", "num_significant",
   "num_minor", "patient_age", "is_geriatric", "has_renal_impairment",
   "has_hepatic_impairment", "num_chronic_conditions", "polypharmacy",
   "num_allergies", "adverse_event", "risk_score"]

/-- The spec's 12-dimensional feature vector of a case, in its
contractual order: num_drugs, the four tier counts, patient_age,
is_geriatric(age≥65), the two impairment flags, num_chronic_conditions,
polypharmacy(num_drugs≥5), num_allergies. -/
def featureVectorSpec (e : CaseRecord) : List ℚ :=
  [e.drugs_checked.length, e.severity_CONTRAINDICATED, e.severity_SERIOUS,
   e.severity_SIGNIFICANT, e.severity_MINOR, e.patient_age,
   if 65 ≤ e.patient_age then 1 else 0,
   if e.has_renal_impairment then 1 else 0,
   if e.has_hepatic_impairment then 1 else 0,
   e.num_chronic_conditions,
   if 5 ≤ e.drugs_checked.length then 1 else 0,
   e.allergy_alerts.length]

/-! ### A concrete well-formed draw, used for witnesses -/

/-- Concrete draws: 2 drugs, no interactions, a 30-year-old with no
impairments, conditions or allergies. -/
def d0 : Draws :=
  { numDrugs := 2,
    selectedDrugs := ["Warfarin", "Aspirin"],
    contraDraw := 0,
    seriousDraw := 0,
    sigPoisson := 0,
    minorPoisson := 0,
    ageGroup := .young,
    ageRaw := 30,
    renalRand := 1/2,
    hepaticRand := 1/2,
    chronicDraw := 0,
    allergyDraw := 0,
    noise := 0,
    eventRand := 1/2,
    safeRand := 1/2,
    dayOffset := 0 }

/-- Two case records that agree on every field except the `generated_at`
timestamp. -/
def agreeExceptTime (a b : CaseRecord) : Prop :=
  a.drugs_checked = b.drugs_checked ∧
  a.severity_CONTRAINDICATED = b.severity_CONTRAINDICATED ∧
  a.severity_SERIOUS = b.severity_SERIOUS ∧
  a.severity_SIGNIFICANT = b.severity_SIGNIFICANT ∧
  a.severity_MINOR = b.severity_MINOR ∧
  a.allergy_alerts = b.allergy_alerts ∧
  a.patient_age = b.patient_age ∧
  a.has_renal_impairment = b.has_renal_impairment ∧
  a.has_hepatic_impairment = b.has_hepatic_impairment ∧
  a.num_chronic_conditions = b.num_chronic_conditions ∧
  a.adverse_event_occurred = b.adverse_event_occurred ∧
  a.risk_score = b.risk_score ∧
  a.adverse_event_probability = b.adverse_event_probability ∧
  a.age_group = b.age_group

/-- A parsed training corpus with one example that lacks the
`patient_age` key. -/
def exBad : List (List String) :=
  [["drugs_checked", "severity_summary", "allergy_alerts",
    "has_renal_impairment", "has_hepatic_impairment",
    "num_chronic_conditions", "adverse_event_occurred"]]

/-- A parsed training corpus with one example carrying all required
keys. -/
def exGood : List (List String) := [requiredFields]

/-- A parsed training corpus whose first 5 examples carry all required
keys but whose sixth lacks `adverse_event_occurred`, so it passes the
first-5 validation and then hits the class-balance scan. -/
def exMixed : List (List String) :=
  [requiredFields, requiredFields, requiredFields, requiredFields,
   requiredFields, ["drugs_checked"]]

/-! ### Helper lemmas -/

/-- The raw score as a closed-form product of the base combination and
the escalation factors. -/
theorem riskScoreRaw_eq (c s g m : ℕ) (age : ℤ) (renal hepatic : Bool)
    (numDrugs allergies chronic : ℕ) :
    riskScoreRaw c s g m age renal hepatic numDrugs allergies chronic =
      (30 * c + 15 * s + 7 * g + 2 * m : ℚ) * ageFactor age *
        (if renal then 5/4 else 1) * (if hepatic then 5/4 else 1) *
        (if 5 ≤ numDrugs then 6/5 else 1) + 10 * allergies + 3 * chronic := by
  unfold riskScoreRaw ageFactor
  split_ifs <;> ring

theorem ageFactor_nonneg (age : ℤ) : 0 ≤ ageFactor age := by
  unfold ageFactor; split_ifs <;> norm_num

theorem riskScoreRaw_nonneg (c s g m : ℕ) (age : ℤ) (renal hepatic : Bool)
    (numDrugs allergies chronic : ℕ) :
    0 ≤ riskScoreRaw c s g m age renal hepatic numDrugs allergies chronic := by
  rw [riskScoreRaw_eq]
  have h1 : (0:ℚ) ≤ ageFactor age := ageFactor_nonneg age
  positivity

/-- The source's elif-chain for the label probability agrees with the
spec's formulation. -/
theorem finalProb_eq_spec (risk : ℚ) (c s : ℕ) (age : ℤ)
    (renal hepatic : Bool) (noise : ℚ) :
    finalProb risk c s age renal hepatic noise =
      finalProbSpec risk c s age renal hepatic noise := by
  simp only [finalProb, finalProbSpec, capMul, Bool.or_eq_true,
    show (25:ℚ)/10 = 5/2 by norm_num, show (95:ℚ)/100 = 19/20 by norm_num,
    show (18:ℚ)/10 = 9/5 by norm_num, show (85:ℚ)/100 = 17/20 by norm_num,
    show (90:ℚ)/100 = 9/10 by norm_num, show (12:ℚ)/10 = 6/5 by norm_num]

theorem d0_wf : d0.WF := by
  unfold Draws.WF d0
  norm_num [commonDrugs, AgeGroup.lo, AgeGroup.hi]
  decide

/-- Under well-formedness the stored drug list has exactly `num_drugs`
entries (`num_drugs ≤ 10 <` the 15-entry vocabulary). -/
theorem genCase_drugs_length (d : Draws) (now : ℤ) (hd : d.WF) :
    (genCase d now).drugs_checked.length = d.numDrugs := by
  obtain ⟨-, h10, hlen, -⟩ := hd
  simp only [genCase, List.length_map, List.enum_length, hlen, commonDrugs,
    List.length_cons, List.length_nil]
  omega

/-! ### Claims -/

/-- C1: for every generated case the rule-based risk score equals the
spec's closed formula — the weighted tier combination multiplied by the
age/renal/hepatic/polypharmacy escalation factors, plus 10×allergies and
3×chronic, clamped to [0, 100]; a single-contraindicated case at age 30
with no other factors scores exactly 30; any case whose pre-clamp value
exceeds 100 scores exactly 100, and no score ever exceeds 100. -/
theorem risk_score_formula_c1 :
    (∀ (d : Draws) (now : ℤ), (genCase d now).risk_score =
      riskScore (numContraindicated d) (numSerious d) (numSignificant d)
        (numMinor d) (patientAge d) (hasRenal d) (hasHepatic d)
        d.numDrugs d.allergyDraw d.chronicDraw) ∧
    (∀ (c s g m : ℕ) (age : ℤ) (renal hepatic : Bool) (nd al cc : ℕ),
      riskScore c s g m age renal hepatic nd al cc =
        riskScoreSpec c s g m age renal hepatic nd al cc) ∧
    riskScore 1 0 0 0 30 false false 2 0 0 = 30 ∧
    (∀ (c s g m : ℕ) (age : ℤ) (renal hepatic : Bool) (nd al cc : ℕ),
      100 < riskScoreRaw c s g m age renal hepatic nd al cc →
        riskScore c s g m age renal hepatic nd al cc = 100) ∧
    (∀ (c s g m : ℕ) (age : ℤ) (renal hepatic : Bool) (nd al cc : ℕ),
      riskScore c s g m age renal hepatic nd al cc ≤ 100) ∧
    riskScore 10 0 0 0 30 false false 2 0 0 = 100 := by
  refine ⟨fun d now => rfl, fun c s g m age renal hepatic nd al cc => ?_,
    by norm_num [riskScore, riskScoreRaw],
    fun c s g m age renal hepatic nd al cc h => ?_,
    fun c s g m age renal hepatic nd al cc => min_le_right _ _,
    by norm_num [riskScore, riskScoreRaw]⟩
  · have hnn := riskScoreRaw_nonneg c s g m age renal hepatic nd al cc
    rw [riskScoreRaw_eq] at hnn
    unfold riskScore riskScoreSpec
    rw [max_eq_left hnn, ← riskScoreRaw_eq]
  · unfold riskScore
    exact min_eq_right h.le

/-- Witness for C1's conditional conjunct: with 10 contraindicated
interactions the pre-clamp value 300 exceeds 100 and the clamped score is
exactly 100. -/
theorem risk_score_formula_c1_witness :
    100 < riskScoreRaw 10 0 0 0 30 false false 2 0 0 ∧
    riskScore 10 0 0 0 30 false false 2 0 0 = 100 := by
  have h : 100 < riskScoreRaw 10 0 0 0 30 false false 2 0 0 := by
    norm_num [riskScoreRaw]
  exact ⟨h, risk_score_formula_c1.2.2.2.1 10 0 0 0 30 false false 2 0 0 h⟩

/-- C5: the pre-clamp rule-based risk score never decreases when
`num_contraindicated` is increased by 1, all other fields fixed. -/
theorem risk_score_monotone_c5 :
    ∀ (c s g m : ℕ) (age : ℤ) (renal hepatic : Bool) (nd al cc : ℕ),
      riskScoreRaw c s g m age renal hepatic nd al cc ≤
        riskScoreRaw (c + 1) s g m age renal hepatic nd al cc := by
  intro c s g m age renal hepatic nd al cc
  rw [riskScoreRaw_eq, riskScoreRaw_eq]
  have hA : (0:ℚ) ≤ ageFactor age := ageFactor_nonneg age
  have hR : (0:ℚ) ≤ if renal then 5/4 else 1 := by split_ifs <;> norm_num
  have hH : (0:ℚ) ≤ if hepatic then 5/4 else 1 := by split_ifs <;> norm_num
  have hP : (0:ℚ) ≤ if 5 ≤ nd then 6/5 else 1 := by split_ifs <;> norm_num
  have hprod : (0:ℚ) ≤ ageFactor age * (if renal then 5/4 else 1) *
      (if hepatic then 5/4 else 1) * (if 5 ≤ nd then 6/5 else 1) :=
    mul_nonneg (mul_nonneg (mul_nonneg hA hR) hH) hP
  push_cast
  nlinarith [hprod]

/-- C4: for every generated case the label probability is the spec's
chain — risk_score/100, the contraindicated ×2.5 (cap 0.95) / else
serious ×1.8 (cap 0.85) step, the geriatric ×1.3 (cap 0.90) step, the
organ-impairment ×1.2 (cap 0.90) step, plus one noise draw, clamped to
[0, 1]; moreover when a contraindicated interaction exists the serious
count has no influence (the serious multiplier is never applied). -/
theorem label_probability_c4 :
    (∀ (d : Draws) (now : ℤ), (genCase d now).adverse_event_probability =
      finalProbSpec ((genCase d now).risk_score) (numContraindicated d)
        (numSerious d) (patientAge d) (hasRenal d) (hasHepatic d) d.noise) ∧
    (∀ (risk : ℚ) (c s : ℕ) (age : ℤ) (renal hepatic : Bool) (noise : ℚ),
      finalProb risk c s age renal hepatic noise =
        finalProbSpec risk c s age renal hepatic noise) ∧
    (∀ (risk : ℚ) (c s s' : ℕ) (age : ℤ) (renal hepatic : Bool) (noise : ℚ),
      0 < c →
        finalProb risk c s age renal hepatic noise =
          finalProb risk c s' age renal hepatic noise) := by
  refine ⟨fun d now => finalProb_eq_spec _ _ _ _ _ _ _,
    finalProb_eq_spec, ?_⟩
  intro risk c s s' age renal hepatic noise hc
  simp only [finalProb, if_pos hc]

/-- Witness for C4's conditional conjunct: with one contraindicated
interaction the probability is the same for 0 and for 5 serious
interactions. -/
theorem label_probability_c4_witness :
    finalProb 30 1 0 30 false false 0 = finalProb 30 1 5 30 false false 0 :=
  label_probability_c4.2.2 30 1 0 5 30 false false 0 (by norm_num)

/-- C3: for every n the generator returns exactly n case records, and
every record has non-negative tier counts with
`num_significant ≤ num_drugs` and `num_minor ≤ 2 × num_drugs`. -/
theorem generator_count_bounds_c3 :
    ∀ (n : ℕ) (stream : ℕ → Draws) (now : ℤ), (∀ i, (stream i).WF) →
      (generate n stream now).length = n ∧
      ∀ r ∈ generate n stream now,
        0 ≤ r.severity_CONTRAINDICATED ∧ 0 ≤ r.severity_SERIOUS ∧
        0 ≤ r.severity_SIGNIFICANT ∧ 0 ≤ r.severity_MINOR ∧
        r.severity_SIGNIFICANT ≤ r.drugs_checked.length ∧
        r.severity_MINOR ≤ 2 * r.drugs_checked.length := by
  intro n stream now hwf
  constructor
  · simp [generate]
  · intro r hr
    simp only [generate, List.mem_map, List.mem_range] at hr
    obtain ⟨i, -, rfl⟩ := hr
    have hlen := genCase_drugs_length (stream i) now (hwf i)
    refine ⟨Nat.zero_le _, Nat.zero_le _, Nat.zero_le _, Nat.zero_le _, ?_, ?_⟩
    · show numSignificant (stream i) ≤ _
      rw [hlen]
      unfold numSignificant
      split
      · exact min_le_right _ _
      · exact Nat.zero_le _
    · show numMinor (stream i) ≤ _
      rw [hlen]
      unfold numMinor
      omega

/-- Witness for C3 at n = 1 with a constant well-formed draw stream. -/
theorem generator_count_bounds_c3_witness :
    (generate 1 (fun _ => d0) 0).length = 1 ∧
    ∀ r ∈ generate 1 (fun _ => d0) 0,
      0 ≤ r.severity_CONTRAINDICATED ∧ 0 ≤ r.severity_SERIOUS ∧
      0 ≤ r.severity_SIGNIFICANT ∧ 0 ≤ r.severity_MINOR ∧
      r.severity_SIGNIFICANT ≤ r.drugs_checked.length ∧
      r.severity_MINOR ≤ 2 * r.drugs_checked.length :=
  generator_count_bounds_c3 1 (fun _ => d0) 0 (fun _ => d0_wf)

/-- C9: every generated case has patient_age between 18 and 94: the
three age buckets draw uniformly from [18,40), [40,65) and [65,95) and
truncate, so no pediatric (< 18) or > 94 ages ever appear even though
the declared domain of patient_age is [0, 120]. -/
theorem age_range_c9 :
    ∀ (d : Draws) (now : ℤ), d.WF →
      18 ≤ (genCase d now).patient_age ∧ (genCase d now).patient_age ≤ 94 := by
  intro d now hd
  obtain ⟨-, -, -, -, -, -, -, hlo, hhi, -⟩ := hd
  have h18 : (18:ℚ) ≤ d.ageRaw := le_trans (by cases d.ageGroup <;> norm_num [AgeGroup.lo]) hlo
  have h95 : d.ageRaw < (95:ℚ) := lt_of_lt_of_le hhi (by cases d.ageGroup <;> norm_num [AgeGroup.hi])
  have hfl : (18:ℤ) ≤ ⌊d.ageRaw⌋ := Int.le_floor.mpr (by exact_mod_cast h18)
  have hfu : ⌊d.ageRaw⌋ < (95:ℤ) := Int.floor_lt.mpr (by exact_mod_cast h95)
  have hpa : (genCase d now).patient_age = ⌊d.ageRaw⌋ := rfl
  rw [hpa]
  exact ⟨hfl, by omega⟩

/-- Witness for C9 at the concrete draw d0 (age 30). -/
theorem age_range_c9_witness :
    18 ≤ (genCase d0 0).patient_age ∧ (genCase d0 0).patient_age ≤ 94 :=
  age_range_c9 d0 0 d0_wf

/-- C10: every generated case has at most 2 contraindicated and at most
3 serious interactions, and at most 3 allergy alerts — the categorical
distributions never draw larger values. -/
theorem severity_allergy_bounds_c10 :
    ∀ (d : Draws) (now : ℤ), d.WF →
      (genCase d now).severity_CONTRAINDICATED ≤ 2 ∧
      (genCase d now).severity_SERIOUS ≤ 3 ∧
      (genCase d now).allergy_alerts.length ≤ 3 := by
  intro d now hd
  obtain ⟨-, -, -, -, -, hcon, hser, -, -, -, -, -, -, -, hall, -⟩ := hd
  refine ⟨?_, ?_, ?_⟩
  · show numContraindicated d ≤ 2
    unfold numContraindicated
    split_ifs at hcon ⊢ with h5 h3 <;> omega
  · show numSerious d ≤ 3
    unfold numSerious
    split_ifs at hser ⊢ with h4 h2 <;> omega
  · show ((List.range d.allergyDraw).map _).length ≤ 3
    simpa using hall

/-- Witness for C10 at the concrete draw d0. -/
theorem severity_allergy_bounds_c10_witness :
    (genCase d0 0).severity_CONTRAINDICATED ≤ 2 ∧
    (genCase d0 0).severity_SERIOUS ≤ 3 ∧
    (genCase d0 0).allergy_alerts.length ≤ 3 :=
  severity_allergy_bounds_c10 d0 0 d0_wf

/-- C2 counterexample: with identical seeded draws, two calls observing
different wall-clock times (line 195 uses `datetime.now()`) produce
different output — the `generated_at` field differs. -/
theorem generator_determinism_c2_cex :
    generate 1 (fun _ => d0) 0 ≠ generate 1 (fun _ => d0) 1 := by
  intro h
  have h2 := congrArg (fun l => l.map CaseRecord.generated_at) h
  simp [generate, genCase, d0] at h2

/-- C2 (amended): with the same seed (hence identical draw streams) and
the same n, two generator calls agree on every field of every record
except `generated_at`, and are fully identical when they additionally
observe the same wall-clock time. -/
theorem generator_determinism_c2 :
    ∀ (n : ℕ) (stream : ℕ → Draws) (t1 t2 : ℤ),
      List.Forall₂ agreeExceptTime (generate n stream t1) (generate n stream t2) ∧
      (t1 = t2 → generate n stream t1 = generate n stream t2) := by
  intro n stream t1 t2
  refine ⟨?_, fun h => by rw [h]⟩
  rw [generate, generate, List.forall₂_map_left_iff, List.forall₂_map_right_iff]
  exact List.forall₂_same.mpr fun i hi =>
    ⟨rfl, rfl, rfl, rfl, rfl, rfl, rfl, rfl, rfl, rfl, rfl, rfl, rfl, rfl⟩

/-- Witness for C2's conditional conjunct at concrete times. -/
theorem generator_determinism_c2_witness :
    List.Forall₂ agreeExceptTime (generate 1 (fun _ => d0) 0)
      (generate 1 (fun _ => d0) 5) ∧
    generate 1 (fun _ => d0) 3 = generate 1 (fun _ => d0) 3 :=
  ⟨(generator_determinism_c2 1 (fun _ => d0) 0 5).1,
   (generator_determinism_c2 1 (fun _ => d0) 3 3).2 rfl⟩

/-- C6 counterexample: on a corpus whose first example lacks
`patient_age`, `train_model` does not fail with an exception — it
returns normally (`Except.ok`) after the early-return validation path,
with training never started. -/
theorem train_validation_c6_cex :
    trainDriver exBad (fun _ => (Except.error "fit" : Except String Unit)) =
      Except.ok (TrainOutcome.missingField 0 "patient_age") := by
  rfl

/-- C6 (amended): whenever a required field is absent from one of the
first 5 examples, the driver prints an error and returns normally with
the validation early-return — for every fit function, so the underlying
training is never invoked and no model is persisted; no
DataValidationError exception is raised or surfaced. -/
theorem train_validation_c6 :
    (∀ (μ : Type) (data : List (List String))
        (fit : List (List String) → Except String μ) (idx : ℕ) (f : String),
      firstMissing data = some (idx, f) →
        trainDriver data fit = Except.ok (TrainOutcome.missingField idx f)) ∧
    (∀ data : List (List String),
      (∃ ex ∈ data.take 5, ∃ f ∈ requiredFields, ex.contains f = false) →
        (firstMissing data).isSome = true) := by
  constructor
  · intro μ data fit idx f h
    simp [trainDriver, h]
  · rintro data ⟨ex, hex, f, hf, hcf⟩
    by_contra hns
    have hnone : firstMissing data = none := by
      cases hfm : firstMissing data
      · rfl
      · rw [hfm] at hns; simp at hns
    unfold firstMissing at hnone
    have hemp := List.head?_eq_none_iff.mp hnone
    obtain ⟨i, hi⟩ := List.mem_iff_getElem?.mp hex
    have hmem : (i, ex) ∈ (data.take 5).enum :=
      List.mk_mem_enum_iff_getElem?.mpr hi
    have hmap := List.filterMap_eq_nil_iff.mp hemp (i, ex) hmem
    have hfm2 : findMissingField ex = none := by
      cases hcase : findMissingField ex
      · rfl
      · rw [hcase] at hmap; simp at hmap
    have hfind := List.find?_eq_none.mp hfm2 f hf
    simp at hfind hcf
    exact hcf hfind

/-- Witness for C6: the concrete corpus missing `patient_age` takes the
early-return path, and the validation locates the missing field. -/
theorem train_validation_c6_witness :
    trainDriver exBad (fun _ => (Except.error "boom" : Except String Unit)) =
      Except.ok (TrainOutcome.missingField 0 "patient_age") ∧
    (firstMissing exBad).isSome = true := by
  constructor
  · exact train_validation_c6.1 Unit exBad _ 0 "patient_age" (by rfl)
  · refine train_validation_c6.2 exBad
      ⟨["drugs_checked", "severity_summary", "allergy_alerts",
        "has_renal_impairment", "has_hepatic_impairment",
        "num_chronic_conditions", "adverse_event_occurred"],
       by simp [exBad], "patient_age", by simp [requiredFields], by rfl⟩

/-- A corpus passing the boolean label-key scan has the key in every
example. -/
theorem all_contains_mem (data : List (List String))
    (h : (data.all fun ex => ex.contains "adverse_event_occurred") = true) :
    ∀ x ∈ data, "adverse_event_occurred" ∈ x := by
  intro x hx
  have hc := List.all_eq_true.mp h x hx
  simpa using hc

/-- C8 counterexample: `train_model` does not return normally on every
run — it propagates ZeroDivisionError on an empty corpus (line 62) and
KeyError when an example past the validated first 5 lacks
`adverse_event_occurred` (line 60), both raised outside the `try` and
regardless of the fit. -/
theorem train_crash_c8_cex :
    trainDriver ([] : List (List String))
        (fun _ => (Except.ok () : Except String Unit)) =
      Except.error "ZeroDivisionError" ∧
    trainDriver exMixed (fun _ => (Except.ok () : Except String Unit)) =
      Except.error "KeyError" :=
  ⟨rfl, rfl⟩

/-- C8 (amended): every exception of the underlying fit/train call is
caught by `train_model`, which prints the troubleshooting checklist and
returns normally instead of propagating it; every run on a corpus that
is non-empty and whose examples all carry `adverse_event_occurred` ends
in a normal return; but the class-balance summary (lines 60-62) runs
before and outside the `try`, so an empty corpus raises
ZeroDivisionError and a missing label key past the validated first 5
raises KeyError, both propagating to the caller. -/
theorem train_catches_fit_c8 :
    (∀ (μ : Type) (data : List (List String))
        (fit : List (List String) → Except String μ) (e : String),
      firstMissing data = none →
      (data.all fun ex => ex.contains "adverse_event_occurred") = true →
      data ≠ [] →
      fit data = Except.error e →
        trainDriver data fit = Except.ok (TrainOutcome.trainingFailed e)) ∧
    (∀ (μ : Type) (data : List (List String))
        (fit : List (List String) → Except String μ),
      (data.all fun ex => ex.contains "adverse_event_occurred") = true →
      data ≠ [] →
      ∃ o, trainDriver data fit = Except.ok o) ∧
    (∀ (μ : Type) (fit : List (List String) → Except String μ),
      trainDriver ([] : List (List String)) fit =
        Except.error "ZeroDivisionError") ∧
    (∀ (μ : Type) (fit : List (List String) → Except String μ),
      trainDriver exMixed fit = Except.error "KeyError") := by
  refine ⟨?_, ?_, fun μ fit => rfl, fun μ fit => rfl⟩
  · intro μ data fit e h1 h2 h3 h4
    simp [trainDriver, h1, h4, List.length_eq_zero, h3]
    exact all_contains_mem data h2
  · intro μ data fit h2 h3
    cases hm : firstMissing data with
    | some p => exact ⟨.missingField p.1 p.2, by simp [trainDriver, hm]⟩
    | none =>
      cases he : fit data with
      | error e =>
        refine ⟨.trainingFailed e, ?_⟩
        simp [trainDriver, hm, he, List.length_eq_zero, h3]
        exact all_contains_mem data h2
      | ok metrics =>
        refine ⟨.trained metrics, ?_⟩
        simp [trainDriver, hm, he, List.length_eq_zero, h3]
        exact all_contains_mem data h2

/-- Witness for C8: on a one-example corpus carrying all keys, a fit
that throws is caught and the driver returns normally with the
troubleshooting outcome. -/
theorem train_catches_fit_c8_witness :
    trainDriver exGood (fun _ => (Except.error "boom" : Except String Unit)) =
      Except.ok (TrainOutcome.trainingFailed "boom") :=
  train_catches_fit_c8.1 Unit exGood _ "boom" (by rfl) (by rfl)
    (by simp [exGood]) rfl

/-- C7 counterexample: the CSV of a concrete one-case corpus does not
carry the column order the spec asserts — the code emits
`num_allergies` before `polypharmacy` and `risk_score` before the label,
while the claim puts `polypharmacy` before `num_allergies` and the label
before `risk_score`. -/
theorem csv_projection_c7_cex :
    (saveCsv [genCase d0 0]).1 ≠ claimedCsvHeader := by
  decide

/-- C7 (amended): `save_training_data` writes, alongside the JSON
document, a tabular projection with exactly one row per case; its
columns are the 12 contractual feature dimensions but with the last two
swapped (`num_allergies` before `polypharmacy`), followed by
`risk_score` rounded to one decimal and then the label; each row is the
first 10 entries of the spec's feature vector, then the allergy count
(length of `allergy_alerts`), the polypharmacy flag
(`num_drugs ≥ 5` with `num_drugs` the length of `drugs_checked`), the
rounded risk score, and the 0/1 label. -/
theorem csv_projection_c7 :
    ∀ data : List CaseRecord,
      (saveCsv data).1 = csvHeader ∧
      (saveCsv data).2.length = data.length ∧
      ∀ e ∈ data, csvRow e =
        (featureVectorSpec e).take 10 ++
          [(e.allergy_alerts.length : ℚ),
           (if 5 ≤ e.drugs_checked.length then (1:ℚ) else 0),
           round1 e.risk_score, (e.adverse_event_occurred : ℚ)] := by
  intro data
  exact ⟨rfl, by simp [saveCsv], fun e he => rfl⟩

/-- Witness for C7's per-element conjunct at a concrete corpus. -/
theorem csv_projection_c7_witness :
    (saveCsv [genCase d0 0]).2.length = 1 ∧
    csvRow (genCase d0 0) =
      (featureVectorSpec (genCase d0 0)).take 10 ++
        [((genCase d0 0).allergy_alerts.length : ℚ),
         (if 5 ≤ (genCase d0 0).drugs_checked.length then (1:ℚ) else 0),
         round1 (genCase d0 0).risk_score,
         ((genCase d0 0).adverse_event_occurred : ℚ)] :=
  ⟨(csv_projection_c7 [genCase d0 0]).2.1,
   (csv_projection_c7 [genCase d0 0]).2.2 (genCase d0 0) (by simp)⟩

end DrugChecker
